import Mathlib

/-!
Verification development for the Laptop-Story-Maker pipeline.

Shallow embedding of the Python sources under `src/`:
`llm_client.py` (retry/fallback orchestration), `memory_manager.py`
(vector-memory store), `refine_scene.py` (multi-pass refinement),
`assemble_chapter.py` (chapter concatenation), `utils.py` (word-count
validation) and `generate_scene.py` (validated generation loop).

External collaborators (the Ollama HTTP backend, the ChromaDB collection,
`hashlib.md5`, `datetime.now`) are modelled explicitly: the LLM backend as a
function from call site to outcome, the ChromaDB collection as a list of
entries with add/update semantics, MD5 as a full executable implementation,
and the current time as an explicit parameter.
-/

namespace StoryApp

/-! ## Python string primitives

Python `str` values are modelled as Lean `String`; the operations the
sources use (`strip`, truthiness, `split`, `startswith`) are defined here
over the character list so that all proofs can evaluate them. -/

/-- Python's `\s` / `str.strip` whitespace set. -/
def pyIsSpace (c : Char) : Bool :=
  c == ' ' || c == '\t' || c == '\n' || c == '\r' || c == '\x0b' || c == '\x0c'

/-- Python `str.strip()` on a character list. -/
def pyStripList (l : List Char) : List Char :=
  ((l.dropWhile pyIsSpace).reverse.dropWhile pyIsSpace).reverse

/-- Python `str.strip()`. -/
def pyStrip (s : String) : String := ⟨pyStripList s.toList⟩

/-- Python truthiness of a `str`: nonempty. -/
def pyTruthyStr (s : String) : Bool := !s.toList.isEmpty

/-- Python truthiness of an `Optional[str]`: not `None` and nonempty. -/
def pyTruthyOptStr : Option String → Bool
  | none => false
  | some s => pyTruthyStr s

/-- Python `a or b` on `Optional[str]` values. -/
def pyOrOptStr (a b : Option String) : Option String :=
  if pyTruthyOptStr a then a else b

/-- Split a character list on a fixed three-character separator, leftmost
non-overlapping occurrences first — the behaviour of Python `str.split(sep)`
for the three-character separators the sources use. `acc` holds the
current piece reversed. -/
def splitOn3Aux (s1 s2 s3 : Char) : List Char → List Char → List (List Char)
  | [], acc => [acc.reverse]
  | [c], acc => [(c :: acc).reverse]
  | [c, d], acc => [(d :: c :: acc).reverse]
  | a :: b :: c :: rest, acc =>
    if a == s1 && b == s2 && c == s3 then
      acc.reverse :: splitOn3Aux s1 s2 s3 rest []
    else
      splitOn3Aux s1 s2 s3 (b :: c :: rest) (a :: acc)

/-- Python `s.split(sep)` for a three-character `sep`. -/
def splitOn3 (s1 s2 s3 : Char) (l : List Char) : List (List Char) :=
  splitOn3Aux s1 s2 s3 l []

/-- Python `s.startswith(pre)`. -/
def pyStartsWith (s pre : String) : Bool :=
  pre.toList.isPrefixOf s.toList

/-! ## MD5 (`hashlib.md5(text.encode()).hexdigest()`)

`memory_manager.py` derives entry ids and the `text_hash` metadata field
from the MD5 hex digest of the UTF-8 encoded text. Machine words are `Nat`
reduced mod `2 ^ 32`. -/

/-- UTF-8 encoding of one code point (`str.encode()`). -/
def utf8Bytes (c : Char) : List Nat :=
  let n := c.toNat
  if n < 128 then [n]
  else if n < 2048 then [192 + n / 64, 128 + n % 64]
  else if n < 65536 then [224 + n / 4096, 128 + (n / 64) % 64, 128 + n % 64]
  else [240 + n / 262144, 128 + (n / 4096) % 64, 128 + (n / 64) % 64, 128 + n % 64]

/-- `text.encode()`: UTF-8 bytes of a string. -/
def strBytes (s : String) : List Nat := s.toList.flatMap utf8Bytes

/-- The 64 MD5 sine-derived round constants. -/
def md5K : List Nat :=
  [3614090360, 3905402710, 606105819, 3250441966, 4118548399, 1200080426,
   2821735955, 4249261313, 1770035416, 2336552879, 4294925233, 2304563134,
   1804603682, 4254626195, 2792965006, 1236535329, 4129170786, 3225465664,
   643717713, 3921069994, 3593408605, 38016083, 3634488961, 3889429448,
   568446438, 3275163606, 4107603335, 1163531501, 2850285829, 4243563512,
   1735328473, 2368359562, 4294588738, 2272392833, 1839030562, 4259657740,
   2763975236, 1272893353, 4139469664, 3200236656, 681279174, 3936430074,
   3572445317, 76029189, 3654602809, 3873151461, 530742520, 3299628645,
   4096336452, 1126891415, 2878612391, 4237533241, 1700485571, 2399980690,
   4293915773, 2240044497, 1873313359, 4264355552, 2734768916, 1309151649,
   4149444226, 3174756917, 718787259, 3951481745]

/-- The MD5 per-round left-rotation amounts. -/
def md5S : List Nat :=
  [7, 12, 17, 22, 7, 12, 17, 22, 7, 12, 17, 22, 7, 12, 17, 22,
   5, 9, 14, 20, 5, 9, 14, 20, 5, 9, 14, 20, 5, 9, 14, 20,
   4, 11, 16, 23, 4, 11, 16, 23, 4, 11, 16, 23, 4, 11, 16, 23,
   6, 10, 15, 21, 6, 10, 15, 21, 6, 10, 15, 21, 6, 10, 15, 21]

/-- 32-bit left rotation. -/
def rotl32 (x c : Nat) : Nat :=
  ((x * 2 ^ c) % 2 ^ 32) ||| (x / 2 ^ (32 - c))

/-- 32-bit complement. -/
def not32 (x : Nat) : Nat := 4294967295 ^^^ x

/-- Pad the message per MD5: append `0x80`, zero-fill to 56 mod 64 bytes,
then the bit length as 8 little-endian bytes. -/
def md5Pad (msg : List Nat) : List Nat :=
  let n := msg.length
  let zeros := (119 - n % 64) % 64
  let bitLen := (n * 8) % 2 ^ 64
  msg ++ [128] ++ List.replicate zeros 0 ++
    (List.range 8).map (fun i => bitLen / 256 ^ i % 256)

/-- Decode a 64-byte chunk into 16 little-endian 32-bit words. -/
def md5Words (chunk : List Nat) : List Nat :=
  (List.range 16).map (fun j =>
    (chunk.getD (4 * j) 0) + (chunk.getD (4 * j + 1) 0) * 256 +
    (chunk.getD (4 * j + 2) 0) * 65536 + (chunk.getD (4 * j + 3) 0) * 16777216)

/-- One MD5 round: state `(a, b, c, d)`, message words `m`, round index `i`. -/
def md5Round (m : List Nat) (st : Nat × Nat × Nat × Nat) (i : Nat) :
    Nat × Nat × Nat × Nat :=
  let (a, b, c, d) := st
  let f :=
    if i < 16 then (b &&& c) ||| (not32 b &&& d)
    else if i < 32 then (d &&& b) ||| (not32 d &&& c)
    else if i < 48 then b ^^^ c ^^^ d
    else c ^^^ (b ||| not32 d)
  let g :=
    if i < 16 then i
    else if i < 32 then (5 * i + 1) % 16
    else if i < 48 then (3 * i + 5) % 16
    else (7 * i) % 16
  let fv := (f + a + md5K.getD i 0 + m.getD g 0) % 2 ^ 32
  (d, (b + rotl32 fv (md5S.getD i 0)) % 2 ^ 32, b, c)

/-- Process one 64-byte chunk, updating the running state. -/
def md5Chunk (st : Nat × Nat × Nat × Nat) (chunk : List Nat) :
    Nat × Nat × Nat × Nat :=
  let (a0, b0, c0, d0) := st
  let (a, b, c, d) := (List.range 64).foldl (md5Round (md5Words chunk)) st
  ((a0 + a) % 2 ^ 32, (b0 + b) % 2 ^ 32, (c0 + c) % 2 ^ 32, (d0 + d) % 2 ^ 32)

/-- Split a byte list into 64-byte chunks (fuel-based so that proofs can
evaluate it by kernel reduction; the fuel in `chunks64` always suffices). -/
def chunks64Fuel : Nat → List Nat → List (List Nat)
  | 0, _ => []
  | _, [] => []
  | fuel + 1, l =>
    if l.length ≤ 64 then [l]
    else l.take 64 :: chunks64Fuel fuel (l.drop 64)

/-- Split a byte list into 64-byte chunks. -/
def chunks64 (l : List Nat) : List (List Nat) := chunks64Fuel (l.length + 1) l

/-- Lowercase hex digit. -/
def hexDigit (n : Nat) : Char :=
  if n < 10 then Char.ofNat (48 + n) else Char.ofNat (87 + n)

/-- Little-endian lowercase hex of one 32-bit word (8 hex chars). -/
def hexWordLE (w : Nat) : List Char :=
  (List.range 4).flatMap (fun i =>
    let byte := w / 256 ^ i % 256
    [hexDigit (byte / 16), hexDigit (byte % 16)])

/-- `hashlib.md5(bytes).hexdigest()`. -/
def md5Hex (msg : List Nat) : String :=
  let init : Nat × Nat × Nat × Nat :=
    (1732584193, 4023233417, 2562383102, 271733878)
  let (a, b, c, d) := (chunks64 (md5Pad msg)).foldl md5Chunk init
  ⟨hexWordLE a ++ hexWordLE b ++ hexWordLE c ++ hexWordLE d⟩

/-- `MemoryManager._hash_text`: `hashlib.md5(text.encode()).hexdigest()`. -/
def hash_text (text : String) : String := md5Hex (strBytes text)

/-! ## `datetime.now()`

The wall clock is external state; it is passed to each operation as an
explicit `PyDateTime` value (microseconds are not modelled — no claim
depends on sub-second precision). -/

/-- A `datetime.datetime` value. -/
structure PyDateTime where
  year : Nat
  month : Nat
  day : Nat
  hour : Nat
  minute : Nat
  second : Nat
deriving DecidableEq, Repr

/-- Zero-padded two-digit decimal rendering. -/
def pad2 (n : Nat) : String := if n < 10 then "0" ++ toString n else toString n

/-- Zero-padded four-digit decimal rendering. -/
def pad4 (n : Nat) : String :=
  if n < 10 then "000" ++ toString n
  else if n < 100 then "00" ++ toString n
  else if n < 1000 then "0" ++ toString n
  else toString n

/-- `datetime.strftime("%Y%m%d%H%M%S")`. -/
def strftimeCompact (t : PyDateTime) : String :=
  pad4 t.year ++ pad2 t.month ++ pad2 t.day ++
    pad2 t.hour ++ pad2 t.minute ++ pad2 t.second

/-- `datetime.isoformat()` (to whole seconds). -/
def isoformat (t : PyDateTime) : String :=
  pad4 t.year ++ "-" ++ pad2 t.month ++ "-" ++ pad2 t.day ++ "T" ++
    pad2 t.hour ++ ":" ++ pad2 t.minute ++ ":" ++ pad2 t.second

/-! ## Python dicts

The metadata dicts the sources build hold string values; a dict is an
association list with unique keys in insertion order, written to with
Python's `d[k] = v` semantics. -/

/-- Metadata dictionary: keys to string values, insertion-ordered. -/
abbrev Dict := List (String × String)

/-- Python `d[k] = v`: overwrite in place if the key exists, else append. -/
def dictSet (d : Dict) (k v : String) : Dict :=
  if (List.any d (fun p => p.1 == k)) then
    List.map (fun p => if p.1 == k then (k, v) else p) d
  else
    d ++ [(k, v)]

/-- Python `d.get(k)` / `d[k]` lookup. -/
def dictGet (d : Dict) (k : String) : Option String :=
  (List.find? (fun p => p.1 == k) d).map (fun p => p.2)

/-! ## `memory_manager.py`: the ChromaDB-backed store

The ChromaDB collection is modelled as a list of entries. `collection.add`
appends when the id is fresh and raises on a duplicate id (or when the
backend itself fails); `collection.update` replaces the entry with the
matching id (or raises on backend failure). The `failAdd` / `failUpdate`
flags inject backend-level failures (disk errors etc.) so that the
error-handling path of `_add_chromadb` can be examined. -/

/-- A stored collection entry: id, document text, metadata. -/
structure Entry where
  id : String
  text : String
  metadata : Dict
deriving DecidableEq, Repr

/-- Outcome of a Python call that may raise. -/
inductive PyResult (α : Type) where
  | ok (a : α)
  | exn (msg : String)
deriving DecidableEq, Repr

/-- `collection.add`: raises on backend failure or duplicate id, else
appends. Returns the new store and whether the call raised. -/
def chromaAdd (failAdd : Bool) (store : List Entry) (e : Entry) :
    List Entry × Bool :=
  if failAdd then (store, true)
  else if List.any store (fun x => x.id == e.id) then (store, true)
  else (store ++ [e], false)

/-- `collection.update`: raises on backend failure, else replaces the entry
with the matching id. -/
def chromaUpdate (failUpdate : Bool) (store : List Entry) (e : Entry) :
    List Entry × Bool :=
  if failUpdate then (store, true)
  else (List.map (fun x => if x.id == e.id then e else x) store, false)

/-- `MemoryManager._add_chromadb`: try `add`; on exception log and try
`update`; on a second exception log again. Neither exception escapes the
method, so the returned `PyResult` is the outcome visible to the caller. -/
def add_chromadb (failAdd failUpdate : Bool) (store : List Entry)
    (e : Entry) : List Entry × PyResult Unit :=
  let r1 := chromaAdd failAdd store e
  if r1.2 then
    let r2 := chromaUpdate failUpdate r1.1 e
    if r2.2 then (r2.1, PyResult.ok ())
    else (r2.1, PyResult.ok ())
  else (r1.1, PyResult.ok ())

/-- `MemoryManager._generate_id`:
`f"{entry_type}_{timestamp}_{hash_str[:8]}"` with
`timestamp = datetime.now().strftime("%Y%m%d%H%M%S")`. -/
def generate_id (text entry_type : String) (now : PyDateTime) : String :=
  entry_type ++ "_" ++ strftimeCompact now ++ "_" ++
    ⟨(hash_text text).toList.take 8⟩

/-- The metadata dict `MemoryManager.add_entry` builds before insert: the
caller's dict (`{}` when `None` or empty, per `if not metadata:`) with
`type`, `timestamp` and `text_hash` then assigned in that order. -/
def entryMetadata (metadata : Option Dict) (text entry_type : String)
    (now : PyDateTime) : Dict :=
  let md : Dict := match metadata with
    | none => []
    | some m => if List.isEmpty m then [] else m
  let md := dictSet md "type" entry_type
  let md := dictSet md "timestamp" (isoformat now)
  dictSet md "text_hash" (hash_text text)

/-- `MemoryManager.add_entry` (chromadb branch): build the metadata,
derive the id, insert via `_add_chromadb`. Returns the new store and the
outcome visible to the caller. -/
def add_entry (failAdd failUpdate : Bool) (store : List Entry)
    (text entry_type : String) (metadata : Option Dict) (now : PyDateTime) :
    List Entry × PyResult Unit :=
  let md := entryMetadata metadata text entry_type now
  let entry_id := generate_id text entry_type now
  add_chromadb failAdd failUpdate store ⟨entry_id, text, md⟩

/-! ### Querying

`_query_chromadb` builds a `where` filter from the entry types and hands
the nearest-neighbour search to ChromaDB. The collection's query is
modelled as: filter the stored entries by the `where` filter, order by an
abstract distance function (the embedding distance to the query text),
and return the first `n_results`. -/

/-- The `where` filter `_query_chromadb` builds. -/
inductive WhereFilter where
  | all
  | typeEq (t : String)
  | typeIn (ts : List String)
deriving DecidableEq, Repr

/-- ChromaDB `where`-filter semantics on the `type` metadata field. -/
def matchesFilter (w : WhereFilter) (e : Entry) : Bool :=
  match w with
  | .all => true
  | .typeEq t => dictGet e.metadata "type" == some t
  | .typeIn ts =>
    match dictGet e.metadata "type" with
    | some v => List.contains ts v
    | none => false

/-- Insert into a list sorted by ascending distance. -/
def insertByDist (dist : Entry → Nat) (e : Entry) :
    List Entry → List Entry
  | [] => [e]
  | x :: xs =>
    if dist e ≤ dist x then e :: x :: xs else x :: insertByDist dist e xs

/-- Order entries by ascending distance (nearest first). -/
def sortByDist (dist : Entry → Nat) : List Entry → List Entry
  | [] => []
  | x :: xs => insertByDist dist x (sortByDist dist xs)

/-- One formatted query result: `{'text': ..., 'metadata': ..., 'distance': ...}`. -/
structure QueryHit where
  text : String
  metadata : Dict
  distance : Nat
deriving DecidableEq, Repr

/-- `MemoryManager._query_chromadb`: build the `where` filter
(single type → equality, several → `$in`, none → no filter), run the
collection query, format the hits. -/
def query_chromadb (dist : Entry → Nat) (store : List Entry)
    (entry_types : List String) (top_k : Nat) : List QueryHit :=
  let where_filter :=
    match entry_types with
    | [] => WhereFilter.all
    | [t] => WhereFilter.typeEq t
    | ts => WhereFilter.typeIn ts
  let results :=
    List.take top_k (sortByDist dist (List.filter (matchesFilter where_filter) store))
  List.map (fun e => ⟨e.text, e.metadata, dist e⟩) results

/-- `MemoryManager.query` (chromadb branch): `entry_types=None` becomes the
empty list, then delegate to `_query_chromadb`. -/
def query (dist : Entry → Nat) (store : List Entry)
    (entry_types : Option (List String)) (top_k : Nat) : List QueryHit :=
  let ts := match entry_types with
    | none => []
    | some l => l
  query_chromadb dist store ts top_k

/-! ## `llm_client.py`: `LLMManager`

The Ollama backend is external: it is modelled as a function from the model
argument (an `Optional[str]`, exactly the value Python would pass to
`client.generate`) and the attempt index to an outcome — either a raised
exception or a returned string. The side effects of an orchestration run
(which models are called in which order, and where `time.sleep` happens)
are recorded as an event trace. -/

/-- Outcome of one `OllamaClient.generate` call. -/
inductive GenOutcome where
  | raised
  | ret (s : String)
deriving DecidableEq, Repr

/-- A backend: outcome of the generate call for a given model argument and
attempt index. -/
def Backend := Option String → Nat → GenOutcome

/-- Observable events of an orchestration run. -/
inductive Event where
  | call (model : Option String) (attempt : Nat)
  | sleep (delay : Nat)
deriving DecidableEq, Repr

/-- The retry loop of `LLMManager._try_generate`, with `attempt` the Python
loop index and `n` the remaining iterations of `range(max_retries)`.
A returned text succeeds iff it is truthy and nonempty after `strip()`;
`time.sleep(retry_delay)` runs only in the `except` branch and only when
`attempt < max_retries - 1`. -/
def tryGenLoop (backend : Backend) (model : Option String)
    (max_retries retry_delay : Nat) : Nat → Nat → Option String × List Event
  | _, 0 => (none, [])
  | attempt, n + 1 =>
    match backend model attempt with
    | .ret result =>
      if pyTruthyStr result && !(List.isEmpty (pyStrip result).toList) then
        (some result, [Event.call model attempt])
      else
        let r := tryGenLoop backend model max_retries retry_delay (attempt + 1) n
        (r.1, Event.call model attempt :: r.2)
    | .raised =>
      let tail := if attempt < max_retries - 1 then [Event.sleep retry_delay] else []
      let r := tryGenLoop backend model max_retries retry_delay (attempt + 1) n
      (r.1, (Event.call model attempt :: tail) ++ r.2)

/-- `LLMManager._try_generate`: up to `max_retries` attempts against one
model; returns the first non-whitespace result, else `None`. -/
def try_generate (backend : Backend) (model : Option String)
    (max_retries retry_delay : Nat) : Option String × List Event :=
  tryGenLoop backend model max_retries retry_delay 0 max_retries

/-- One model chain from the configuration: the `primary` / `model` /
`fallback` / `alternatives` fields of a `models` config section. -/
structure ModelCfg where
  primary : Option String
  model : Option String
  fallback : Option String
  alternatives : List String
deriving DecidableEq, Repr

/-- The alternatives loop of `generate_with_retry`: try each alternative in
list order, short-circuiting on the first truthy result. -/
def genAlts (backend : Backend) (max_retries retry_delay : Nat) :
    List String → Option String × List Event
  | [] => (none, [])
  | alt :: rest =>
    let r := try_generate backend (some alt) max_retries retry_delay
    if pyTruthyOptStr r.1 then r
    else
      let r2 := genAlts backend max_retries retry_delay rest
      (r2.1, r.2 ++ r2.2)

/-- `LLMManager.generate_with_retry`: primary (`cfg.get('primary') or
cfg.get('model')`) first; on a falsy result the fallback, if configured and
truthy; then the alternatives in list order; `None` when the whole chain is
exhausted. -/
def generate_with_retry (backend : Backend) (cfg : ModelCfg)
    (max_retries retry_delay : Nat) : Option String × List Event :=
  let primary := pyOrOptStr cfg.primary cfg.model
  let r1 := try_generate backend primary max_retries retry_delay
  if pyTruthyOptStr r1.1 then r1
  else
    let rf :=
      if pyTruthyOptStr cfg.fallback then
        try_generate backend cfg.fallback max_retries retry_delay
      else (none, [])
    if pyTruthyOptStr rf.1 then (rf.1, r1.2 ++ rf.2)
    else
      let ra := genAlts backend max_retries retry_delay cfg.alternatives
      (ra.1, r1.2 ++ rf.2 ++ ra.2)

/-! ## `refine_scene.py`: `SceneRefiner`

`_run_pass` is a single LLM invocation (prompt lookup, optional style-guide
interpolation, `LLMManager.refine_scene`); it is abstracted as a function
from the current content and pass type to an optional refined text. The
`refine` loop and its persistence pattern are embedded directly; each
`utils.save_text_file` call is recorded as a `SavedArtifact`. -/

/-- One artifact written by `utils.save_text_file` during `refine`:
the version tag and stage directory of `utils.get_scene_path`, plus the
content written. -/
structure SavedArtifact where
  version : String
  stage : String
  content : String
deriving DecidableEq, Repr

/-- `SceneRefiner._get_stage_name`: `"refined"` for every pass but the
last, `"final"` for the last. -/
def get_stage_name (pass_num total_passes : Nat) : String :=
  if pass_num < total_passes then "refined" else "final"

/-- The pass loop of `SceneRefiner.refine`: `pass_num` is the 1-based
`enumerate` index; a successful pass writes `v{pass_num+1}_{pass_type}`
under its stage and advances; a failed pass aborts with `False`. After the
loop the current content is written as `FINAL` under `"final"`. -/
def refineGo (run_pass : String → String → Option String) (total : Nat) :
    Nat → String → List String → List SavedArtifact × Bool
  | _, current, [] => ([⟨"FINAL", "final", current⟩], true)
  | pass_num, current, p :: rest =>
    match run_pass current p with
    | some refined =>
      let art : SavedArtifact :=
        ⟨"v" ++ toString (pass_num + 1) ++ "_" ++ p,
         get_stage_name pass_num total, refined⟩
      let r := refineGo run_pass total (pass_num + 1) refined rest
      (art :: r.1, r.2)
    | none => ([], false)

/-- `SceneRefiner.refine` on loaded scene content: run the passes in order
and record every artifact written. -/
def refine (run_pass : String → String → Option String) (content : String)
    (passes : List String) : List SavedArtifact × Bool :=
  refineGo run_pass passes.length 1 content passes

/-! ## `assemble_chapter.py`: `ChapterAssembler` -/

/-- Python `content.split('---', 2)`: at most two splits, remainder joined
back with the separator. -/
def pySplitDashes2 (content : String) : List String :=
  match splitOn3 '-' '-' '-' content.toList with
  | a :: b :: c :: rest =>
    [⟨a⟩, ⟨b⟩, ⟨List.intercalate ['-', '-', '-'] (c :: rest)⟩]
  | l => List.map (fun cs => (⟨cs⟩ : String)) l

/-- `ChapterAssembler._remove_scene_header`: when the content starts with
`---` and splits into at least three parts on `---`, return the third part
stripped; otherwise the content unchanged. -/
def remove_scene_header (content : String) : String :=
  if pyStartsWith content "---" then
    match pySplitDashes2 content with
    | [_, _, c] => pyStrip c
    | _ => content
  else content

/-- `ChapterAssembler._concatenate_scenes` on loaded scene contents:
chapter header, then each nonempty scene with its header stripped followed
by the separator, the trailing separator dropped. -/
def concatenate_scenes (scene_contents : List String) (chapter : Nat) :
    String :=
  let parts :=
    List.foldl
      (fun acc content =>
        if pyTruthyStr content then
          acc ++ [remove_scene_header content, "\n\n---\n\n"]
        else acc)
      ["# Chapter " ++ toString chapter ++ "\n\n"] scene_contents
  let parts :=
    match List.getLast? parts with
    | some last => if pyStrip last == "---" then List.dropLast parts else parts
    | none => parts
  String.join parts

/-! ## `utils.py`: `count_words` and `validate_word_count`

`count_words` applies three regex substitutions — `^#+\s+.*$` (MULTILINE),
triple-backquote code fences (DOTALL, non-greedy), `---.*?---` (DOTALL,
non-greedy) — then counts the maximal word-character runs matched by
`\b\w+\b`. -/

/-- One line matches `^#+\s+.*$`: one or more `#`, then at least one
whitespace character. -/
def isHeaderLine (cs : List Char) : Bool :=
  let hashes := List.takeWhile (fun c => c == '#') cs
  let rest := List.dropWhile (fun c => c == '#') cs
  !List.isEmpty hashes &&
    (match rest with
     | c :: _ => pyIsSpace c
     | [] => false)

/-- `re.sub(r'^#+\s+.*$', '', text, flags=re.MULTILINE)`: blank out every
header line, keeping the newlines. -/
def removeHeaderLines (cs : List Char) : List Char :=
  List.intercalate ['\n']
    (List.map (fun l => if isHeaderLine l then [] else l)
      (List.splitOn '\n' cs))

/-- Non-greedy removal of spans between a repeated three-character marker:
pieces at even positions between matched marker pairs survive; a final
unmatched marker and its tail survive verbatim. This is
`re.sub(sep + '.*?' + sep, '', s, flags=re.DOTALL)` for a three-character
`sep`. -/
def removePairedAux (sep : List Char) : List (List Char) → List Char
  | [] => []
  | [p] => p
  | [p, q] => p ++ sep ++ q
  | p :: _ :: rest => p ++ removePairedAux sep rest

/-- `re.sub` of a non-greedy three-character-delimited span with `''`. -/
def removePaired (s1 s2 s3 : Char) (cs : List Char) : List Char :=
  removePairedAux [s1, s2, s3] (splitOn3 s1 s2 s3 cs)

/-- Python `\w`: word character. -/
def pyIsWordChar (c : Char) : Bool := c.isAlphanum || c == '_'

/-- Count the maximal `\w+` runs (`re.findall(r'\b\w+\b', text)` length). -/
def countWordRuns : List Char → Bool → Nat
  | [], _ => 0
  | c :: rest, inWord =>
    if pyIsWordChar c then
      (if inWord then 0 else 1) + countWordRuns rest true
    else countWordRuns rest false

/-- `utils.count_words`. -/
def count_words (text : String) : Nat :=
  let cs := removeHeaderLines text.toList
  let cs := removePaired '\x60' '\x60' '\x60' cs
  let cs := removePaired '-' '-' '-' cs
  countWordRuns cs false

/-- `utils.validate_word_count`: word count below the minimum or above the
maximum fails with a message; otherwise the deviation from `target` is
computed, which raises `ZeroDivisionError` when `target = 0`. (The
floating-point deviation percentage interpolated into the valid branch's
message is not modelled; no claim reads the message text.) -/
def validate_word_count (text : String) (target min_words max_words : Int) :
    PyResult (Bool × Nat × String) :=
  let word_count := count_words text
  if (word_count : Int) < min_words then
    .ok (false, word_count,
      "Too short: " ++ toString word_count ++ " words (min: " ++
        toString min_words ++ ")")
  else if (word_count : Int) > max_words then
    .ok (false, word_count,
      "Too long: " ++ toString word_count ++ " words (max: " ++
        toString max_words ++ ")")
  else if target == 0 then
    .exn "ZeroDivisionError"
  else
    .ok (true, word_count, "Valid: " ++ toString word_count ++ " words")

/-! ## `generate_scene.py`: `SceneGenerator._generate_with_validation`

The inner `generate_with_retry` call is abstracted as a function from the
attempt index to its `Optional[str]` result. -/

/-- The attempt loop of `_generate_with_validation`: `attempt` is the
Python loop index, `n` the remaining iterations. A falsy prose result
`continue`s; an invalid word count retries unless this is the last attempt,
which returns the prose anyway; a `ZeroDivisionError` from the validator
propagates. -/
def genValidLoop (gen : Nat → Option String) (target min_words max_words : Int)
    (max_retries : Nat) : Nat → Nat → PyResult (Option String)
  | _, 0 => .ok none
  | attempt, n + 1 =>
    match gen attempt with
    | none => genValidLoop gen target min_words max_words max_retries (attempt + 1) n
    | some prose =>
      if !pyTruthyStr prose then
        genValidLoop gen target min_words max_words max_retries (attempt + 1) n
      else
        match validate_word_count prose target min_words max_words with
        | .exn e => .exn e
        | .ok (valid, _, _) =>
          if valid then .ok (some prose)
          else if attempt < max_retries - 1 then
            genValidLoop gen target min_words max_words max_retries (attempt + 1) n
          else .ok (some prose)

/-- `SceneGenerator._generate_with_validation`. -/
def generate_with_validation (gen : Nat → Option String)
    (target min_words max_words : Int) (max_retries : Nat) :
    PyResult (Option String) :=
  genValidLoop gen target min_words max_words max_retries 0 max_retries

/-! ## Concrete demonstration inputs used by witnesses and counterexamples -/

/-- A refinement pass that always succeeds, tagging the content. -/
def demoRunPass (content pass_type : String) : Option String :=
  some (content ++ " <" ++ pass_type ++ ">")

/-! ## Theorems -/

/-- C6: assembling chapter 1 from two scene texts `"Text A"` and `"Text B"`
(smoothing disabled, so the raw concatenation is the chapter content)
yields exactly a chapter header, the scenes in order separated by the fixed
delimiter, and no trailing separator. -/
theorem concatenate_two_scenes_exact :
    concatenate_scenes ["Text A", "Text B"] 1 =
      "# Chapter 1\n\nText A\n\n---\n\nText B" := by
  decide

/-- C9: when the word count of the text is within `[min_words, max_words]`,
`validate_word_count` with `target = 0` reaches the deviation computation
and raises `ZeroDivisionError` instead of returning a result. -/
theorem validate_word_count_zero_target_raises (text : String)
    (min_words max_words : Int)
    (hmin : ¬((count_words text : Int) < min_words))
    (hmax : ¬((count_words text : Int) > max_words)) :
    validate_word_count text 0 min_words max_words =
      PyResult.exn "ZeroDivisionError" := by
  unfold validate_word_count
  simp [hmin, hmax]

/-- Witness for C9 at the concrete text `"alpha beta gamma"` (3 words)
with bounds `[1, 5]`. -/
theorem validate_word_count_zero_target_raises_witness :
    ¬((count_words "alpha beta gamma" : Int) < 1) ∧
    ¬((count_words "alpha beta gamma" : Int) > 5) ∧
    validate_word_count "alpha beta gamma" 0 1 5 =
      PyResult.exn "ZeroDivisionError" :=
  ⟨by decide, by decide,
    validate_word_count_zero_target_raises "alpha beta gamma" 1 5
      (by decide) (by decide)⟩

/-- Both backend operations fail during an insert, yet `add_entry` returns
normally with no failure indication and the entry is silently lost. -/
theorem add_entry_backend_failure_swallowed :
    add_entry true true [] "Mira reaches the gate" "scene_summary" none
      ⟨2024, 5, 1, 12, 0, 0⟩ = ([], PyResult.ok ()) := by
  decide

/-- `_add_chromadb` catches every exception of both `add` and `update`. -/
theorem add_chromadb_ok (failAdd failUpdate : Bool) (store : List Entry)
    (e : Entry) :
    (add_chromadb failAdd failUpdate store e).2 = PyResult.ok () := by
  simp only [add_chromadb]
  split
  · split <;> rfl
  · rfl

/-- C4 (amended): a backend-level failure during `add_entry`'s insert is
never surfaced to the caller — `_add_chromadb` catches the insert
exception, falls back to an update attempt, and catches that too, so
`add_entry` always completes normally with no failure indication. -/
theorem add_entry_never_surfaces_failure (failAdd failUpdate : Bool)
    (store : List Entry) (text entry_type : String) (metadata : Option Dict)
    (now : PyDateTime) :
    (add_entry failAdd failUpdate store text entry_type metadata now).2 =
      PyResult.ok () := by
  unfold add_entry
  exact add_chromadb_ok failAdd failUpdate store _

/-- A two-pass refinement run writes three artifacts, not two: the loop
writes `v2_cohesion` (refined) and `v3_style` (final), and then `refine`
additionally writes the `FINAL` copy. -/
theorem refine_two_passes_writes_three_artifacts :
    refine demoRunPass "Scene prose" ["cohesion", "style"] =
      ([⟨"v2_cohesion", "refined", "Scene prose <cohesion>"⟩,
        ⟨"v3_style", "final", "Scene prose <cohesion> <style>"⟩,
        ⟨"FINAL", "final", "Scene prose <cohesion> <style>"⟩], true) := by
  decide

/-- C5 (amended): a refinement run with `passes = [cohesion, style]` whose
passes both succeed persists exactly three scene artifacts: the first
written under the `"refined"` stage, the second under the `"final"` stage,
and then a `FINAL` copy of the second output, also under `"final"`. -/
theorem refine_two_passes_artifact_stages
    (run_pass : String → String → Option String) (s r1 r2 : String)
    (h1 : run_pass s "cohesion" = some r1)
    (h2 : run_pass r1 "style" = some r2) :
    refine run_pass s ["cohesion", "style"] =
      ([⟨"v2_cohesion", "refined", r1⟩,
        ⟨"v3_style", "final", r2⟩,
        ⟨"FINAL", "final", r2⟩], true) := by
  simp [refine, refineGo, h1, h2, get_stage_name]
  exact ⟨by decide, by decide⟩

/-- Witness for C5 (amended) at the always-succeeding demo pass. -/
theorem refine_two_passes_artifact_stages_witness :
    demoRunPass "S" "cohesion" = some "S <cohesion>" ∧
    demoRunPass "S <cohesion>" "style" = some "S <cohesion> <style>" ∧
    refine demoRunPass "S" ["cohesion", "style"] =
      ([⟨"v2_cohesion", "refined", "S <cohesion>"⟩,
        ⟨"v3_style", "final", "S <cohesion> <style>"⟩,
        ⟨"FINAL", "final", "S <cohesion> <style>"⟩], true) :=
  ⟨rfl, rfl,
    refine_two_passes_artifact_stages demoRunPass "S" "S <cohesion>"
      "S <cohesion> <style>" rfl rfl⟩

/-- Re-adding identical text and entry type one second later yields two
entries in the store: the id embeds the creation timestamp, so the second
call does not compute the same id. -/
theorem add_entry_duplicates_across_seconds :
    (add_entry false false
        (add_entry false false [] "The gate is sealed" "continuity" none
          ⟨2024, 5, 1, 12, 0, 0⟩).1
        "The gate is sealed" "continuity" none
          ⟨2024, 5, 1, 12, 0, 1⟩).1.length = 2 := by
  decide

/-- `find?` after the overwriting `map` of `dictSet` finds the new pair
when the key was present. -/
theorem find?_map_overwrite_self (d : Dict) (k v : String)
    (h : List.any d (fun p => p.1 == k) = true) :
    List.find? (fun p => p.1 == k)
      (List.map (fun p => if p.1 == k then (k, v) else p) d) = some (k, v) := by
  induction d with
  | nil => simp at h
  | cons a t ih =>
    by_cases hk : (a.1 == k) = true
    · rw [List.map_cons, if_pos hk]
      simp only [List.find?_cons, beq_self_eq_true k]
    · have hk2 : (a.1 == k) = false := by simpa using hk
      simp only [List.any_cons, hk2, Bool.false_or] at h
      rw [List.map_cons, if_neg hk]
      simp only [List.find?_cons, hk2]
      exact ih h

/-- The overwriting `map` of `dictSet` does not affect lookups of other
keys. -/
theorem find?_map_overwrite_other (d : Dict) (k v k2 : String)
    (h : (k2 == k) = false) :
    List.find? (fun p => p.1 == k2)
      (List.map (fun p => if p.1 == k then (k, v) else p) d) =
      List.find? (fun p => p.1 == k2) d := by
  have hne : k2 ≠ k := by simpa using h
  have hne2 : (k == k2) = false := by
    simp only [beq_eq_false_iff_ne]
    exact fun hkk => hne hkk.symm
  induction d with
  | nil => rfl
  | cons a t ih =>
    by_cases hk : (a.1 == k) = true
    · have hak : a.1 = k := by simpa using hk
      have ha2 : (a.1 == k2) = false := by rw [hak]; exact hne2
      rw [List.map_cons, if_pos hk]
      simp only [List.find?_cons, ha2, hne2]
      exact ih
    · rw [List.map_cons, if_neg hk]
      by_cases ha2 : (a.1 == k2) = true
      · simp only [List.find?_cons, ha2]
      · have ha2f : (a.1 == k2) = false := by simpa using ha2
        simp only [List.find?_cons, ha2f]
        exact ih

/-- No key match means `find?` yields nothing. -/
theorem find?_none_of_any_false (d : Dict) (k : String)
    (h : List.any d (fun p => p.1 == k) = false) :
    List.find? (fun p => p.1 == k) d = none := by
  rw [List.find?_eq_none]
  rw [List.any_eq_false] at h
  exact h

/-- Characterisation of a lookup after a Python dict assignment. -/
theorem dictGet_dictSet (d : Dict) (k v k2 : String) :
    dictGet (dictSet d k v) k2 =
      if (k2 == k) = true then some v else dictGet d k2 := by
  unfold dictSet dictGet
  by_cases hany : List.any d (fun p => p.1 == k) = true
  · rw [if_pos hany]
    by_cases hk : (k2 == k) = true
    · have hkk : k2 = k := by simpa using hk
      subst hkk
      rw [find?_map_overwrite_self d k2 v hany]
      simp [hk]
    · simp only [Bool.not_eq_true] at hk
      rw [find?_map_overwrite_other d k v k2 hk]
      simp [hk]
  · simp only [Bool.not_eq_true] at hany
    rw [if_neg (by simp [hany]), List.find?_append]
    by_cases hk : (k2 == k) = true
    · have hkk : k2 = k := by simpa using hk
      subst hkk
      rw [find?_none_of_any_false d k2 hany, Option.none_or]
      simp only [List.find?_cons, beq_self_eq_true k2]
      simp
    · have hkf : (k2 == k) = false := by simpa using hk
      have hne2 : (k == k2) = false := by
        simp only [beq_eq_false_iff_ne]
        have : k2 ≠ k := by simpa using hkf
        exact fun hkk => this hkk.symm
      simp only [List.find?_cons, hne2, List.find?_nil, Option.or_none]
      simp [hkf]

/-- C2 (amended): two `add_entry` calls with identical text and entry type
yield exactly one entry in the store provided they happen within the same
clock second (so that `%Y%m%d%H%M%S` formats identically and the two calls
compute the same id, the second replacing the first); calls in different
seconds compute different ids and duplicate instead. -/
theorem add_entry_idempotent_same_second (text entry_type : String)
    (md1 md2 : Option Dict) (t1 t2 : PyDateTime)
    (h : strftimeCompact t1 = strftimeCompact t2) :
    (add_entry false false
        (add_entry false false [] text entry_type md1 t1).1
        text entry_type md2 t2).1.length = 1 := by
  have hid : generate_id text entry_type t1 = generate_id text entry_type t2 := by
    unfold generate_id
    rw [h]
  simp [add_entry, add_chromadb, chromaAdd, chromaUpdate, hid]

/-- Witness for C2 (amended): both calls at the same instant. -/
theorem add_entry_idempotent_same_second_witness :
    strftimeCompact ⟨2024, 5, 1, 12, 0, 0⟩ = strftimeCompact ⟨2024, 5, 1, 12, 0, 0⟩ ∧
    (add_entry false false
        (add_entry false false [] "The gate is sealed" "continuity" none
          ⟨2024, 5, 1, 12, 0, 0⟩).1
        "The gate is sealed" "continuity" none
          ⟨2024, 5, 1, 12, 0, 0⟩).1.length = 1 :=
  ⟨rfl,
    add_entry_idempotent_same_second "The gate is sealed" "continuity"
      none none ⟨2024, 5, 1, 12, 0, 0⟩ ⟨2024, 5, 1, 12, 0, 0⟩ rfl⟩

/-- With a working backend, the entry handed to `_add_chromadb` is in the
store afterwards: appended when its id is fresh, substituted by the update
fallback when the id already existed. -/
theorem mem_add_chromadb_ok (store : List Entry) (e : Entry) :
    e ∈ (add_chromadb false false store e).1 := by
  by_cases hdup : List.any store (fun x => x.id == e.id) = true
  · rw [List.any_eq_true] at hdup
    obtain ⟨x, hx, hxe⟩ := hdup
    have hdup2 : List.any store (fun x => x.id == e.id) = true :=
      List.any_eq_true.mpr ⟨x, hx, hxe⟩
    simp only [add_chromadb, chromaAdd, chromaUpdate, hdup2, Bool.false_eq_true,
      if_false, if_true]
    rw [List.mem_map]
    exact ⟨x, hx, by simp [hxe]⟩
  · simp only [Bool.not_eq_true] at hdup
    simp [add_chromadb, chromaAdd, chromaUpdate, hdup]

/-- C10: every entry stored by `add_entry` carries metadata whose `type`
equals the `entry_type` argument and whose `timestamp` and `text_hash` keys
hold the call-time timestamp and the text's hash — caller-supplied values
for these keys are overwritten — and (with a working backend) the built
entry is present in the store after the call. -/
theorem add_entry_metadata_overrides (store : List Entry)
    (text entry_type : String) (metadata : Option Dict) (now : PyDateTime) :
    dictGet (entryMetadata metadata text entry_type now) "type" = some entry_type ∧
    dictGet (entryMetadata metadata text entry_type now) "timestamp" =
      some (isoformat now) ∧
    dictGet (entryMetadata metadata text entry_type now) "text_hash" =
      some (hash_text text) ∧
    Entry.mk (generate_id text entry_type now) text
        (entryMetadata metadata text entry_type now) ∈
      (add_entry false false store text entry_type metadata now).1 := by
  refine ⟨?_, ?_, ?_, ?_⟩
  · simp only [entryMetadata]
    rw [dictGet_dictSet, dictGet_dictSet, dictGet_dictSet]
    simp
  · simp only [entryMetadata]
    rw [dictGet_dictSet, dictGet_dictSet]
    simp
  · simp only [entryMetadata]
    rw [dictGet_dictSet]
    simp
  · exact mem_add_chromadb_ok store _

/-- A nonempty string is truthy. -/
theorem pyTruthyStr_of_ne (s : String) (h : s ≠ "") : pyTruthyStr s = true := by
  unfold pyTruthyStr
  cases s with
  | mk data =>
    cases data with
    | nil => exact absurd rfl h
    | cons c cs => rfl

/-- A result `_try_generate` returns is always a nonempty (truthy) string:
the success check requires a truthy, non-whitespace response. -/
theorem tryGenLoop_some_truthy (backend : Backend) (model : Option String)
    (mr rd : Nat) :
    ∀ n a s, (tryGenLoop backend model mr rd a n).1 = some s →
      pyTruthyStr s = true := by
  intro n
  induction n with
  | zero =>
    intro a s h
    simp [tryGenLoop] at h
  | succ n ih =>
    intro a s h
    unfold tryGenLoop at h
    cases hb : backend model a with
    | ret result =>
      rw [hb] at h
      dsimp only at h
      by_cases hc :
          (pyTruthyStr result && !(List.isEmpty (pyStrip result).toList)) = true
      · rw [if_pos hc] at h
        dsimp only at h
        cases h
        have hx := hc
        simp only [Bool.and_eq_true] at hx
        exact hx.1
      · rw [if_neg hc] at h
        dsimp only at h
        exact ih (a + 1) s h
    | raised =>
      rw [hb] at h
      dsimp only at h
      exact ih (a + 1) s h

/-- C1: for a chain with primary `a`, fallback `b` and alternatives
`[c, d]`, when `a` and `b` are exhausted and `c` yields `s`, the
orchestrator returns `s` and its event trace is exactly the `a`-attempts,
then the `b`-attempts, then the `c`-attempts — primary first, fallback
second, alternatives in list order, and `d` never tried. -/
theorem generate_with_retry_chain_order (backend : Backend)
    (a b c d : String) (mr rd : Nat) (s : String)
    (ha : a ≠ "") (hb : b ≠ "")
    (hA : (try_generate backend (some a) mr rd).1 = none)
    (hB : (try_generate backend (some b) mr rd).1 = none)
    (hC : (try_generate backend (some c) mr rd).1 = some s) :
    generate_with_retry backend ⟨some a, none, some b, [c, d]⟩ mr rd =
      (some s,
        (try_generate backend (some a) mr rd).2 ++
          (try_generate backend (some b) mr rd).2 ++
          (try_generate backend (some c) mr rd).2) := by
  have hAt : pyTruthyOptStr (try_generate backend (some a) mr rd).1 = false := by
    rw [hA]; rfl
  have hBt : pyTruthyOptStr (try_generate backend (some b) mr rd).1 = false := by
    rw [hB]; rfl
  have hCt : pyTruthyOptStr (try_generate backend (some c) mr rd).1 = true := by
    rw [hC]
    exact tryGenLoop_some_truthy backend (some c) mr rd mr 0 s hC
  have hat : pyTruthyOptStr (some a) = true := pyTruthyStr_of_ne a ha
  have hbt : pyTruthyOptStr (some b) = true := pyTruthyStr_of_ne b hb
  have hst : pyTruthyOptStr (some s) = true :=
    tryGenLoop_some_truthy backend (some c) mr rd mr 0 s hC
  simp only [generate_with_retry, genAlts, pyOrOptStr, hat, hbt, hAt, hBt, hCt,
    hC, hst, if_true, if_false, Bool.false_eq_true]

/-- A backend on which the chain `alpha → beta → [gamma, delta]` fails
until `gamma`. -/
def demoBackend : Backend := fun model _ =>
  if model == some "gamma" then GenOutcome.ret "Prose from gamma"
  else GenOutcome.raised

/-- Witness for C1 on the concrete backend. -/
theorem generate_with_retry_chain_order_witness :
    ("alpha" : String) ≠ "" ∧ ("beta" : String) ≠ "" ∧
    (try_generate demoBackend (some "alpha") 2 1).1 = none ∧
    (try_generate demoBackend (some "beta") 2 1).1 = none ∧
    (try_generate demoBackend (some "gamma") 2 1).1 = some "Prose from gamma" ∧
    generate_with_retry demoBackend
        ⟨some "alpha", none, some "beta", ["gamma", "delta"]⟩ 2 1 =
      (some "Prose from gamma",
        (try_generate demoBackend (some "alpha") 2 1).2 ++
          (try_generate demoBackend (some "beta") 2 1).2 ++
          (try_generate demoBackend (some "gamma") 2 1).2) :=
  ⟨by decide, by decide, by decide, by decide, by decide,
    generate_with_retry_chain_order demoBackend "alpha" "beta" "gamma" "delta"
      2 1 "Prose from gamma" (by decide) (by decide) (by decide) (by decide)
      (by decide)⟩

/-- An attempt fails when the backend raises or returns an
empty/whitespace-only text. -/
def attemptFailed : GenOutcome → Bool
  | .raised => true
  | .ret s => !(pyTruthyStr s && !(List.isEmpty (pyStrip s).toList))

/-- The events of the `i`-th failed attempt: the backend call, followed by
the sleep exactly when the attempt raised and was not the last allowed
attempt. -/
def failTraceItem (backend : Backend) (model : Option String)
    (mr rd i : Nat) : List Event :=
  Event.call model i ::
    (match backend model i with
     | .raised => if i < mr - 1 then [Event.sleep rd] else []
     | .ret _ => [])

/-- Trace of the retry loop when every attempt in the window fails. -/
theorem tryGenLoop_all_fail (backend : Backend) (model : Option String)
    (mr rd : Nat) :
    ∀ n a, (∀ i, a ≤ i → i < a + n → attemptFailed (backend model i) = true) →
      tryGenLoop backend model mr rd a n =
        (none, (List.range' a n).flatMap (failTraceItem backend model mr rd)) := by
  intro n
  induction n with
  | zero =>
    intro a _
    simp [tryGenLoop, List.range']
  | succ n ih =>
    intro a h
    have hrec := ih (a + 1) (fun i h1 h2 => h i (by omega) (by omega))
    have hfa : attemptFailed (backend model a) = true := h a le_rfl (by omega)
    unfold tryGenLoop
    cases hbk : backend model a with
    | ret result =>
      have hfb : attemptFailed (GenOutcome.ret result) = true := hbk ▸ hfa
      have hcond :
          (pyTruthyStr result && !(List.isEmpty (pyStrip result).toList)) = false := by
        cases hx : (pyTruthyStr result && !(List.isEmpty (pyStrip result).toList)) with
        | false => rfl
        | true =>
          have hnot :
              (!(pyTruthyStr result && !(List.isEmpty (pyStrip result).toList))) = true :=
            hfb
          rw [hx] at hnot
          exact absurd hnot (by decide)
      dsimp only
      rw [if_neg (by rw [hcond]; exact Bool.false_ne_true)]
      rw [hrec]
      simp [List.range', failTraceItem, hbk]
    | raised =>
      dsimp only
      rw [hrec]
      simp [List.range', failTraceItem, hbk]

/-- C3 (amended): within one model, up to `max_retries` attempts are made,
an attempt failing both on a raised backend error and on an
empty/whitespace-only response; but the fixed delay separates consecutive
attempts only when the earlier attempt raised an error and was not the
last allowed attempt — after an empty/whitespace response the next attempt
starts immediately, with no delay. -/
theorem try_generate_retry_and_delay_placement (backend : Backend)
    (model : Option String) (mr rd : Nat)
    (h : ∀ i, i < mr → attemptFailed (backend model i) = true) :
    try_generate backend model mr rd =
      (none, (List.range mr).flatMap (failTraceItem backend model mr rd)) := by
  unfold try_generate
  rw [List.range_eq_range']
  exact tryGenLoop_all_fail backend model mr rd mr 0 (fun i _ h2 => h i (by omega))

/-- A backend that raises on the first attempt and then returns
whitespace-only responses. -/
def failingBackend : Backend := fun _ attempt =>
  if attempt == 0 then GenOutcome.raised else GenOutcome.ret " "

/-- Witness for C3 (amended): three failing attempts — one raised (followed
by the sleep), two whitespace (followed by none). -/
theorem try_generate_retry_and_delay_placement_witness :
    try_generate failingBackend (some "m") 3 5 =
      (none, (List.range 3).flatMap (failTraceItem failingBackend (some "m") 3 5)) :=
  try_generate_retry_and_delay_placement failingBackend (some "m") 3 5 (by decide)

/-- A backend whose first response is whitespace-only and whose second
succeeds. -/
def emptyThenOkBackend : Backend := fun _ attempt =>
  if attempt == 0 then GenOutcome.ret "   " else GenOutcome.ret "All good"

/-- A whitespace-only response counts as a failed attempt, but the next
attempt follows it immediately: with `retry_delay = 2` the trace holds the
two consecutive calls and no sleep event at all. -/
theorem try_generate_no_delay_after_empty_response :
    try_generate emptyThenOkBackend (some "m") 3 2 =
      (some "All good", [Event.call (some "m") 0, Event.call (some "m") 1]) ∧
    Event.sleep 2 ∉ (try_generate emptyThenOkBackend (some "m") 3 2).2 := by
  decide

/-- Membership in an insertion-sorted list comes from the inserted element
or the original list. -/
theorem mem_insertByDist (dist : Entry → Nat) (e x : Entry) :
    ∀ l, x ∈ insertByDist dist e l → x = e ∨ x ∈ l := by
  intro l
  induction l with
  | nil =>
    intro h
    simp [insertByDist] at h
    exact Or.inl h
  | cons y ys ih =>
    intro h
    unfold insertByDist at h
    by_cases hc : dist e ≤ dist y
    · rw [if_pos hc] at h
      rcases List.mem_cons.mp h with h1 | h2
      · exact Or.inl h1
      · exact Or.inr h2
    · rw [if_neg hc] at h
      rcases List.mem_cons.mp h with h1 | h2
      · exact Or.inr (h1 ▸ List.mem_cons_self y ys)
      · rcases ih h2 with h3 | h4
        · exact Or.inl h3
        · exact Or.inr (List.mem_cons_of_mem y h4)

/-- Sorting by distance creates no new elements. -/
theorem mem_sortByDist (dist : Entry → Nat) (x : Entry) :
    ∀ l, x ∈ sortByDist dist l → x ∈ l := by
  intro l
  induction l with
  | nil => intro h; simp [sortByDist] at h
  | cons y ys ih =>
    intro h
    unfold sortByDist at h
    rcases mem_insertByDist dist y x (sortByDist dist ys) h with h1 | h2
    · exact h1 ▸ List.mem_cons_self y ys
    · exact List.mem_cons_of_mem y (ih h2)

/-- C7: with a non-empty entry-type restriction, every hit a memory query
returns has a stored `type` belonging to the given set — in particular a
query restricted to `character` never returns an entry of another type. -/
theorem query_respects_type_filter (dist : Entry → Nat) (store : List Entry)
    (entry_types : List String) (top_k : Nat) (hit : QueryHit)
    (hne : entry_types ≠ [])
    (hmem : hit ∈ query dist store (some entry_types) top_k) :
    ∃ v, dictGet hit.metadata "type" = some v ∧ v ∈ entry_types := by
  cases entry_types with
  | nil => exact absurd rfl hne
  | cons t rest =>
    cases rest with
    | nil =>
      unfold query query_chromadb at hmem
      dsimp only at hmem
      rw [List.mem_map] at hmem
      obtain ⟨e, he, hfmt⟩ := hmem
      have hmatch : matchesFilter (WhereFilter.typeEq t) e = true :=
        (List.mem_filter.mp
          (mem_sortByDist dist e _ (List.mem_of_mem_take he))).2
      have heq : dictGet e.metadata "type" = some t := by
        simpa [matchesFilter] using hmatch
      refine ⟨t, ?_, List.mem_singleton.mpr rfl⟩
      rw [← hfmt]
      exact heq
    | cons t2 r2 =>
      unfold query query_chromadb at hmem
      dsimp only at hmem
      rw [List.mem_map] at hmem
      obtain ⟨e, he, hfmt⟩ := hmem
      have hmatch : matchesFilter (WhereFilter.typeIn (t :: t2 :: r2)) e = true :=
        (List.mem_filter.mp
          (mem_sortByDist dist e _ (List.mem_of_mem_take he))).2
      unfold matchesFilter at hmatch
      cases hg : dictGet e.metadata "type" with
      | none => rw [hg] at hmatch; exact absurd hmatch (by simp)
      | some v =>
        rw [hg] at hmatch
        refine ⟨v, ?_, by simpa using hmatch⟩
        rw [← hfmt]
        exact hg

/-- A concrete two-entry store with distinct types. -/
def demoStore : List Entry :=
  [⟨"character_20240501120000_abcd0000", "Mira is stubborn",
    [("type", "character")]⟩,
   ⟨"world_20240501120000_efgh0000", "The gate is sealed",
    [("type", "world")]⟩]

/-- A concrete embedding distance: the length of the stored text. -/
def demoDist : Entry → Nat := fun e => e.text.toList.length

/-- Witness for C7 on the concrete store: the `character`-restricted query
returns the character entry, whose stored type is in the filter set. -/
theorem query_respects_type_filter_witness :
    (["character"] : List String) ≠ [] ∧
    (⟨"Mira is stubborn", [("type", "character")], 16⟩ : QueryHit) ∈
      query demoDist demoStore (some ["character"]) 5 ∧
    ∃ v, dictGet ([("type", "character")] : Dict) "type" = some v ∧
      v ∈ ["character"] :=
  ⟨by decide, by decide,
    query_respects_type_filter demoDist demoStore ["character"] 5
      ⟨"Mira is stubborn", [("type", "character")], 16⟩ (by decide) (by decide)⟩

/-- The `i`-th generation attempt leads to a retry: the orchestrator
returned nothing, or an empty text, or a nonempty text whose word count
failed validation. -/
def retriedAttempt (gen : Nat → Option String)
    (target min_words max_words : Int) (i : Nat) : Prop :=
  gen i = none ∨ gen i = some "" ∨
    ∃ p wc msg, gen i = some p ∧ p ≠ "" ∧
      validate_word_count p target min_words max_words =
        PyResult.ok (false, wc, msg)

/-- The validation loop accepts the final attempt's nonempty output even
when its word count is invalid, provided every earlier attempt retried. -/
theorem genValidLoop_accepts_last (gen : Nat → Option String)
    (target min_words max_words : Int) (mr : Nat) (p : String) (wc : Nat)
    (msg : String)
    (hlast : gen (mr - 1) = some p) (hp : p ≠ "")
    (hinv : validate_word_count p target min_words max_words =
      PyResult.ok (false, wc, msg)) :
    ∀ n a, a + n = mr → 0 < n →
      (∀ i, a ≤ i → i + 1 < mr → retriedAttempt gen target min_words max_words i) →
      genValidLoop gen target min_words max_words mr a n =
        PyResult.ok (some p) := by
  intro n
  induction n with
  | zero =>
    intro a _ h1 _
    omega
  | succ n ih =>
    intro a hsum _ hprev
    cases n with
    | zero =>
      have ha : a = mr - 1 := by omega
      subst ha
      unfold genValidLoop
      rw [hlast]
      have htr : pyTruthyStr p = true := pyTruthyStr_of_ne p hp
      simp only [htr, Bool.not_true, Bool.false_eq_true, if_false, hinv]
      simp [lt_irrefl]
    | succ m =>
      have hstep := hprev a le_rfl (by omega)
      have hrec := ih (a + 1) (by omega) (by omega)
        (fun i h1 h2 => hprev i (by omega) h2)
      unfold genValidLoop
      rcases hstep with h1 | h2 | ⟨q, wq, mq, hq, hqne, hqinv⟩
      · rw [h1]
        exact hrec
      · rw [h2]
        simpa [pyTruthyStr] using hrec
      · rw [hq]
        have htr : pyTruthyStr q = true := pyTruthyStr_of_ne q hqne
        have haq : a < mr - 1 := by omega
        simp only [htr, Bool.not_true, Bool.false_eq_true, if_false, hqinv,
          haq, if_true]
        exact hrec

/-- C8: up to `max_retries` full generation attempts are made; attempts
whose word count fails validation are retried, except the final one, whose
nonempty output is accepted and returned even though its word count is out
of range. -/
theorem generate_with_validation_final_attempt_accepted
    (gen : Nat → Option String) (target min_words max_words : Int)
    (max_retries : Nat) (p : String) (wc : Nat) (msg : String)
    (hmr : 0 < max_retries)
    (hprev : ∀ i, i + 1 < max_retries →
      retriedAttempt gen target min_words max_words i)
    (hlast : gen (max_retries - 1) = some p) (hp : p ≠ "")
    (hinv : validate_word_count p target min_words max_words =
      PyResult.ok (false, wc, msg)) :
    generate_with_validation gen target min_words max_words max_retries =
      PyResult.ok (some p) :=
  genValidLoop_accepts_last gen target min_words max_words max_retries p wc msg
    hlast hp hinv max_retries 0 (by omega) hmr (fun i _ h2 => hprev i h2)

/-- A generator whose first attempt yields nothing and whose second yields
a one-word text. -/
def demoGen : Nat → Option String :=
  fun attempt => if attempt == 0 then none else some "one"

/-- Witness for C8: with bounds `[2, 4]`, the final attempt's `"one"` is
out of range yet accepted. -/
theorem generate_with_validation_final_attempt_accepted_witness :
    0 < 2 ∧ demoGen 1 = some "one" ∧ ("one" : String) ≠ "" ∧
    validate_word_count "one" 3 2 4 =
      PyResult.ok (false, 1, "Too short: 1 words (min: 2)") ∧
    generate_with_validation demoGen 3 2 4 2 = PyResult.ok (some "one") :=
  ⟨by decide, by decide, by decide, by decide,
    generate_with_validation_final_attempt_accepted demoGen 3 2 4 2 "one" 1
      "Too short: 1 words (min: 2)" (by decide)
      (fun i hi =>
        Or.inl (by
          have h0 : i = 0 := by omega
          rw [h0]
          rfl))
      (by decide) (by decide) (by decide)⟩

end StoryApp
